import Mathlib

/-
Shallow embedding of the goaoc library (github.com/hvpaiva/goaoc).

Source files embedded:
  - io.go                 : Env, DefaultConsoleManager.Read / Write,
                            getPartInFlag, getPartInEnv, getPartInStdin, toClipboard
  - goaoc.go (part_002)   : Run, WithManager, WithPart, executeChallenge, injectOptions
  - errors.go (part_003)  : InvalidPartError, ErrInvalidPartType, ErrMissingPart,
                            IOReadError, IOWriteError
  - part.go (io_test.go companion) : Challenge, Part, NewPart
  - mock/manager.go       : mock.Manager (test double)
  - example/main.go       : partOne, partTwo example challenge functions

Modelling conventions:
  - Go (value, error) return pairs become `Except GoError String`; in every
    source function an error return carries the empty string, so no information
    is lost.
  - The ambient operating-system state (environment variables, clipboard
    behaviour) is the `OsEnv` structure; the per-manager `Env` structure mirrors
    the Go `Env` struct (Args, Stdin, Stdout), with Stdin abstracted to the
    outcome of the single `fmt.Fscanln` the code performs and Stdout abstracted
    to whether writes succeed (`stdoutErr = none`) or all fail with a fixed
    error.  The textual content written to Stdout on the read side (the
    interactive prompt and flag-usage messages) is not tracked; only the Write
    method's emission is accumulated, which is what the output claims concern.
  - Go's `panic` in executeChallenge is modelled by the `Except` error channel
    of `executeChallenge`, kept distinct from returned errors by the
    `RunResult.panicked` constructor at the Run level.
-/

namespace Goaoc

/-- Errors of the goaoc package and the standard-library errors it propagates.
`ioRead`/`ioWrite` are the wrapper structs IOReadError/IOWriteError (with their
Unwrap chains), `invalidPart` is InvalidPartError{Part}, `missingPart` is
ErrMissingPart, `invalidPartType` is ErrInvalidPartType.  `flagNotDefined`,
`badFlagArg`, `flagNeedsArg` and `flagHelp` are the errors of the standard
flag package; `atoiBad`/`atoiRange` are strconv's ErrSyntax/ErrRange (wrapped
in a NumError, whose identity injectOptions never inspects); `eof` is io.EOF
and `external` stands for an arbitrary caller-supplied error value (for
instance a failing writer's error). -/
inductive GoError where
  | missingPart
  | invalidPartType
  | invalidPart (part : Int)
  | ioRead (e : GoError)
  | ioWrite (e : GoError)
  | flagNotDefined (name : String)
  | badFlagArg (arg : String)
  | flagNeedsArg (name : String)
  | flagHelp
  | eof
  | atoiBad
  | atoiRange
  | external (msg : String)
  deriving DecidableEq, Repr

/-- Outcome of the single `fmt.Fscanln(env.Stdin, &part)` call in
getPartInStdin: either one token was scanned, or scanning failed with an error
`e` leaving `scanned` (typically "") in the target variable. -/
inductive ScanResult where
  | tok (s : String)
  | scanErr (e : GoError) (scanned : String)
  deriving DecidableEq, Repr

/-- The Go `Env` struct of io.go: command-line arguments plus abstracted
Stdin/Stdout streams (see the header comment). -/
structure Env where
  args : List String
  stdoutErr : Option GoError
  stdinScan : ScanResult

/-- Ambient operating-system state read by io.go: the two environment
variables (`none` = unset, mirroring os.Getenv returning "") and whether
`clipboard.CopyText` fails (`some msg`) or succeeds (`none`). -/
structure OsEnv where
  challengePart : Option String
  disableCopyClipboard : Option String
  clipboardFail : Option String

/-- os.Getenv: an unset variable reads as the empty string. -/
def getenv (v : Option String) : String := v.getD ""

/-- errors.Is(err, io.EOF): unwraps through the IOReadError/IOWriteError
Unwrap chain and compares with io.EOF. -/
def goIsEOF : GoError → Bool
  | .eof => true
  | .ioRead e => goIsEOF e
  | .ioWrite e => goIsEOF e
  | _ => false

/-- Splits a flag name at its first '=' (the value separator), as the flag
package's parseOne does.  Returns the name part and, when a '=' was present,
the value part. -/
def splitEq : List Char → List Char × Option (List Char)
  | [] => ([], none)
  | c :: cs =>
    if c = '=' then ([], some cs)
    else
      let r := splitEq cs
      (c :: r.1, r.2)

/-- The parse loop of the standard flag package (flag.FlagSet.Parse /
parseOne) specialised to the one registered flag of getPartInFlag: the string
flag "part" with default "".  `part` is the current value of the flag
variable.  Parsing stops at the first non-flag argument, at "-", or after a
bare "--"; "-name=value" and "-name value" forms are accepted with one or two
dashes; an unknown name is an error, except "help"/"h" which yield
flag.ErrHelp. -/
def parsePart : List String → String → Except GoError String
  | [], part => .ok part
  | s :: rest, part =>
    match s.data with
    | '-' :: '-' :: [] => .ok part
    | '-' :: '-' :: c :: cs =>
      if c = '-' ∨ c = '=' then .error (.badFlagArg s)
      else
        match splitEq (c :: cs) with
        | (nm, some v) =>
          if String.mk nm = "part" then parsePart rest (String.mk v)
          else if String.mk nm = "help" ∨ String.mk nm = "h" then .error .flagHelp
          else .error (.flagNotDefined (String.mk nm))
        | (nm, none) =>
          if String.mk nm = "part" then
            match rest with
            | v :: rest2 => parsePart rest2 v
            | [] => .error (.flagNeedsArg (String.mk nm))
          else if String.mk nm = "help" ∨ String.mk nm = "h" then .error .flagHelp
          else .error (.flagNotDefined (String.mk nm))
    | '-' :: c :: cs =>
      if c = '-' ∨ c = '=' then .error (.badFlagArg s)
      else
        match splitEq (c :: cs) with
        | (nm, some v) =>
          if String.mk nm = "part" then parsePart rest (String.mk v)
          else if String.mk nm = "help" ∨ String.mk nm = "h" then .error .flagHelp
          else .error (.flagNotDefined (String.mk nm))
        | (nm, none) =>
          if String.mk nm = "part" then
            match rest with
            | v :: rest2 => parsePart rest2 v
            | [] => .error (.flagNeedsArg (String.mk nm))
          else if String.mk nm = "help" ∨ String.mk nm = "h" then .error .flagHelp
          else .error (.flagNotDefined (String.mk nm))
    | _ => .ok part

/-- io.go getPartInFlag: parse the "part" flag from env.Args; a parse error is
wrapped in IOReadError. -/
def getPartInFlag (env : Env) : Except GoError String :=
  match parsePart env.args "" with
  | .error e => .error (.ioRead e)
  | .ok part => .ok part

/-- io.go getPartInEnv: read GOAOC_CHALLENGE_PART; never errors. -/
def getPartInEnv (os : OsEnv) : Except GoError String :=
  .ok (getenv os.challengePart)

/-- io.go getPartInStdin: print the prompt (a failing Stdout propagates the
writer's error unwrapped), then scan one token.  An EOF scan failure becomes
IOReadError{ErrMissingPart}; ANY OTHER scan failure is dropped and the
scanned (possibly empty) token is returned with a nil error. -/
def getPartInStdin (env : Env) : Except GoError String :=
  match env.stdoutErr with
  | some e => .error e
  | none =>
    match env.stdinScan with
    | .tok s => .ok s
    | .scanErr e scanned =>
      if goIsEOF e then .error (.ioRead .missingPart) else .ok scanned

/-- Tags naming the three members of the `checks` slice in
DefaultConsoleManager.Read, in their fixed order. -/
inductive SourceTag where
  | flagSrc
  | envSrc
  | stdinSrc
  deriving DecidableEq, Repr

/-- The `checks` slice built by DefaultConsoleManager.Read, each source paired
with its tag.  In Go these are closures; here each entry carries the result
the closure would produce in the given environment. -/
def readChecks (os : OsEnv) (env : Env) : List (SourceTag × Except GoError String) :=
  [(.flagSrc, getPartInFlag env), (.envSrc, getPartInEnv os), (.stdinSrc, getPartInStdin env)]

/-- The `for _, check := range checks` loop of DefaultConsoleManager.Read,
instrumented: besides the result it returns the list of sources the loop
actually evaluated (a source error returns it at once; a non-empty value
returns it at once; exhaustion yields IOReadError{ErrMissingPart}). -/
def readLoop : List (SourceTag × Except GoError String) → Except GoError String × List SourceTag
  | [] => (.error (.ioRead .missingPart), [])
  | (tag, c) :: cs =>
    match c with
    | .error e => (.error e, [tag])
    | .ok p =>
      if p = "" then
        let r := readLoop cs
        (r.1, tag :: r.2)
      else (.ok p, [tag])

/-- DefaultConsoleManager.Read, instrumented with the list of consulted
sources.  Any argument other than "part" returns ("", nil) at once. -/
def consoleReadT (os : OsEnv) (env : Env) (arg : String) :
    Except GoError String × List SourceTag :=
  if arg ≠ "part" then (.ok "", [])
  else readLoop (readChecks os env)

/-- DefaultConsoleManager.Read of io.go (the result component of
`consoleReadT`). -/
def consoleRead (os : OsEnv) (env : Env) (arg : String) : Except GoError String :=
  (consoleReadT os env arg).1

/-- io.go toClipboard: when GOAOC_DISABLE_COPY_CLIPBOARD is exactly "true",
do nothing; otherwise attempt the copy and append the status line (failure is
reported on Stdout but never propagated).  `out` is the text already on the
output sink. -/
def toClipboard (os : OsEnv) (value : String) (out : String) : String :=
  if getenv os.disableCopyClipboard = "true" then out
  else
    match os.clipboardFail with
    | some msg => out ++ "Error copying to clipboard: " ++ msg ++ "\n"
    | none => out ++ "Copied to clipboard: " ++ value ++ "\n"

/-- DefaultConsoleManager.Write of io.go: print the fixed-format result line
(a write failure is wrapped in IOWriteError and aborts), then run
toClipboard.  Returns the text emitted on Stdout and the error, if any. -/
def consoleWrite (os : OsEnv) (env : Env) (result : String) : String × Option GoError :=
  match env.stdoutErr with
  | some e => ("", some (.ioWrite e))
  | none =>
    let out := "The challenge result is " ++ result ++ "\n"
    (toClipboard os result out, none)

/-- The IOManager interface of goaoc.go: `read` fetches a named argument
(the Go method returns a value-and-error pair whose value every caller
discards when the error is non-nil, so `Except` is faithful), `write` emits
the result, returning the text it put on its sink and the error, if any. -/
structure IOManager where
  read : String → Except GoError String
  write : String → String × Option GoError

/-- io.go NewConsoleManager, for a given ambient state: the
DefaultConsoleManager with Read and Write as embedded above. -/
def NewConsoleManager (os : OsEnv) (env : Env) : IOManager :=
  { read := consoleRead os env, write := consoleWrite os env }

/-- mock.Manager of mock/manager.go: Read ignores its argument and returns
the configured part string and errSelectPart (the pair's value is discarded
by the caller whenever the error is non-nil); Write fails with errOutput when
configured, otherwise emits "The challenge result is <result>\n" into its
buffer. -/
def mockManager (part : String) (errSelectPart errOutput : Option GoError) : IOManager :=
  { read := fun _ =>
      match errSelectPart with
      | some e => .error e
      | none => .ok part
    write := fun result =>
      match errOutput with
      | some e => ("", some e)
      | none => ("The challenge result is " ++ result ++ "\n", none) }

/-- The numeric value of a decimal digit character, none otherwise. -/
def digitVal (c : Char) : Option Nat :=
  if '0' ≤ c ∧ c ≤ '9' then some (c.toNat - '0'.toNat) else none

/-- Accumulates the value of a run of decimal digits; none on any non-digit. -/
def parseDigits : List Char → Nat → Option Nat
  | [], acc => some acc
  | c :: cs, acc =>
    match digitVal c with
    | some d => parseDigits cs (10 * acc + d)
    | none => none

/-- strconv.Atoi (equivalently ParseInt(s, 10, 0) on a 64-bit platform): an
optional sign followed by at least one decimal digit; anything else is a
syntax error (`atoiBad` = ErrSyntax), and a mathematical value outside the
int64 range is a range error (`atoiRange` = ErrRange; Go also returns the
clamped value then, which injectOptions discards because the error is
non-nil). -/
def goAtoi (s : String) : Except GoError Int :=
  match s.data with
  | [] => .error .atoiBad
  | c :: cs =>
    let signed : Bool × List Char :=
      if c = '+' then (false, cs)
      else if c = '-' then (true, cs)
      else (false, c :: cs)
    match signed.2 with
    | [] => .error .atoiBad
    | ds =>
      match parseDigits ds 0 with
      | none => .error .atoiBad
      | some n =>
        let v : Int := if signed.1 then -(n : Int) else (n : Int)
        if v < -(2 ^ 63) ∨ 2 ^ 63 - 1 < v then .error .atoiRange else .ok v

/-- The Part type is `type Part int`; NewPart rejects every value other than
1 and 2 with InvalidPartError{Part: p}. -/
def NewPart (p : Int) : Except GoError Int :=
  if p ≠ 1 ∧ p ≠ 2 then .error (.invalidPart p) else .ok p

/-- The runOptions struct of goaoc.go: manager is nil-able, part's zero value
is 0. -/
structure RunOpts where
  manager : Option IOManager
  part : Int

/-- A RunOption mutates runOptions and returns an error — which injectOptions
discards (`_ = option(opts)`). -/
def RunOption := RunOpts → RunOpts × Option GoError

/-- goaoc.go WithManager. -/
def WithManager (m : IOManager) : RunOption :=
  fun o => ({ o with manager := some m }, none)

/-- goaoc.go WithPart: stores Part(part). -/
def WithPart (p : Int) : RunOption :=
  fun o => ({ o with part := p }, none)

/-- The option-application loop of injectOptions: each option is applied in
order and its returned error is discarded. -/
def applyOptions (options : List RunOption) (opts : RunOpts) : RunOpts :=
  options.foldl (fun o f => (f o).1) opts

/-- goaoc.go injectOptions, instrumented: apply the options, default the
manager to NewConsoleManager(), and when part is still 0 resolve it through
manager.Read("part") → strconv.Atoi (any Atoi error becomes
ErrInvalidPartType) → NewPart.  The Bool records whether manager.Read was
invoked. -/
def injectOptionsT (os : OsEnv) (env : Env) (options : List RunOption) :
    Except GoError (IOManager × Int) × Bool :=
  let opts := applyOptions options { manager := none, part := 0 }
  let mgr := opts.manager.getD (NewConsoleManager os env)
  if opts.part ≠ 0 then (.ok (mgr, opts.part), false)
  else
    match mgr.read "part" with
    | .error e => (.error e, true)
    | .ok partStr =>
      match goAtoi partStr with
      | .error _ => (.error .invalidPartType, true)
      | .ok p =>
        match NewPart p with
        | .error e => (.error e, true)
        | .ok part => (.ok (mgr, part), true)

/-- goaoc.go executeChallenge: part 1 runs partOne, part 2 runs partTwo, and
the default branch panics with ErrMissingPart — modelled as the error
channel, which Run turns into `RunResult.panicked`. -/
def executeChallenge (input : String) (partOne partTwo : String → Int) (part : Int) :
    Except GoError Int :=
  if part = 1 then .ok (partOne input)
  else if part = 2 then .ok (partTwo input)
  else .error .missingPart

/-- Outcome of a Run call: normal success, a returned error, or a panic
escaping Run (which returns nothing). -/
inductive RunResult where
  | ok
  | err (e : GoError)
  | panicked (e : GoError)
  deriving DecidableEq, Repr

/-- goaoc.go Run, instrumented: injectOptions, then executeChallenge, then
manager.Write(strconv.Itoa(result)).  The String is the text the manager's
Write emitted on its sink; the Bool is injectOptions' record of whether
manager.Read was invoked. -/
def RunT (os : OsEnv) (env : Env) (input : String) (partOne partTwo : String → Int)
    (options : List RunOption) : (RunResult × String) × Bool :=
  match injectOptionsT os env options with
  | (.error e, r) => ((.err e, ""), r)
  | (.ok (mgr, part), r) =>
    match executeChallenge input partOne partTwo part with
    | .error p => ((.panicked p, ""), r)
    | .ok result =>
      match mgr.write (toString result) with
      | (out, some e) => ((.err e, out), r)
      | (out, none) => ((.ok, out), r)

/-- goaoc.go Run (the result component of `RunT`): the returned RunResult and
the text the manager's Write emitted.  `toString` on Int agrees with
strconv.Itoa (decimal, '-' sign). -/
def Run (os : OsEnv) (env : Env) (input : String) (partOne partTwo : String → Int)
    (options : List RunOption) : RunResult × String :=
  (RunT os env input partOne partTwo options).1

/-- example/main.go partOne: len(input), the byte length of the string. -/
def examplePartOne (input : String) : Int := (input.utf8ByteSize : Int)

/-- example/main.go partTwo: len(input) * 2. -/
def examplePartTwo (input : String) : Int := (input.utf8ByteSize : Int) * 2

/-- goaoc_test.go mockPartOne: constantly 42. -/
def mockPartOne (_ : String) : Int := 42

/-- goaoc_test.go mockPartTwo: constantly 24. -/
def mockPartTwo (_ : String) : Int := 24

/-- True when an `external` error value occurs anywhere in an error's wrap
chain; used to show that a surfaced error does not carry a given cause. -/
def mentionsExternal : GoError → Bool
  | .ioRead e => mentionsExternal e
  | .ioWrite e => mentionsExternal e
  | .external _ => true
  | _ => false

/-! Concrete ambient states used by the theorems below. -/

/-- No GOAOC environment variables set, clipboard copy would succeed. -/
def osNoPart : OsEnv :=
  { challengePart := none, disableCopyClipboard := none, clipboardFail := none }

/-- No challenge-part variable, clipboard copying disabled. -/
def osClipOff : OsEnv :=
  { challengePart := none, disableCopyClipboard := some "true", clipboardFail := none }

/-- GOAOC_CHALLENGE_PART set to "2". -/
def osEnvTwo : OsEnv :=
  { challengePart := some "2", disableCopyClipboard := none, clipboardFail := none }

/-- GOAOC_CHALLENGE_PART set to "3". -/
def osEnvThree : OsEnv :=
  { challengePart := some "3", disableCopyClipboard := none, clipboardFail := none }

/-- No command-line arguments, working Stdout, empty Stdin (Fscanln hits
io.EOF at once). -/
def envEmpty : Env :=
  { args := [], stdoutErr := none, stdinScan := .scanErr .eof "" }

/-- Command line `-part=1`, working Stdout, empty Stdin. -/
def envFlagOne : Env :=
  { args := ["-part=1"], stdoutErr := none, stdinScan := .scanErr .eof "" }

/-- Command line `--test` (a flag the flag set does not define). -/
def envBadFlag : Env :=
  { args := ["--test"], stdoutErr := none, stdinScan := .scanErr .eof "" }

/-- Stdin whose scan fails with a custom, non-EOF error and scans nothing. -/
def envStdinBoom : Env :=
  { args := [], stdoutErr := none, stdinScan := .scanErr (.external "read boom") "" }

/-- Stdin whose scan fails with a custom, non-EOF error after scanning a
token. -/
def envStdinBoomTok : Env :=
  { args := [], stdoutErr := none, stdinScan := .scanErr (.external "read boom") "tok" }

/-- C1: with input "abc", the example challenge functions len and len*2, and
the selector forced by WithPart, Run with the default console manager (here
with clipboard copying disabled so that the sink holds the result line alone)
invokes exactly the matching function and emits exactly
"The challenge result is 3\n" for part 1 and "The challenge result is 6\n"
for part 2. -/
theorem run_end_to_end_abc :
    Run osClipOff envEmpty "abc" examplePartOne examplePartTwo [WithPart 1] =
      (.ok, "The challenge result is 3\n") ∧
    Run osClipOff envEmpty "abc" examplePartOne examplePartTwo [WithPart 2] =
      (.ok, "The challenge result is 6\n") := by
  decide

/-- C2: in DefaultConsoleManager.Read's chain (flag, then environment, then
stdin), the first source returning a non-empty string determines the raw
selector and no later source is evaluated: a non-empty flag value wins with
only the flag source consulted (whatever the environment variable holds), and
with an empty flag value a non-empty environment value wins with only the
flag and environment sources consulted. -/
theorem console_read_first_nonempty_wins (os : OsEnv) (env : Env) (v : String)
    (hv : v ≠ "") :
    (getPartInFlag env = .ok v → consoleReadT os env "part" = (.ok v, [.flagSrc])) ∧
    (getPartInFlag env = .ok "" → getenv os.challengePart = v →
      consoleReadT os env "part" = (.ok v, [.flagSrc, .envSrc])) := by
  constructor
  · intro h
    simp [consoleReadT, readChecks, readLoop, h, hv]
  · intro h1 h2
    simp [consoleReadT, readChecks, readLoop, getPartInEnv, h1, h2, hv]

/-- Witness for C2: flag `-part=1` beats environment value "2". -/
theorem console_read_first_nonempty_wins_witness :
    consoleReadT osEnvTwo envFlagOne "part" = (.ok "1", [.flagSrc]) :=
  (console_read_first_nonempty_wins osEnvTwo envFlagOne "1" (by decide)).1 rfl

/-- The read-invocation record of an instrumented run is exactly the one made
by injectOptions: the dispatch and write stages never touch manager.Read. -/
theorem RunT_snd_eq (os : OsEnv) (env : Env) (input : String)
    (partOne partTwo : String → Int) (options : List RunOption) :
    (RunT os env input partOne partTwo options).2 = (injectOptionsT os env options).2 := by
  unfold RunT
  rcases hio : injectOptionsT os env options with ⟨res, r⟩
  cases res with
  | error e => simp
  | ok mp =>
    rcases mp with ⟨mgr, part⟩
    rcases hx : executeChallenge input partOne partTwo part with p | result
    · simp [hx]
    · rcases hw : mgr.write (toString result) with ⟨out, oe⟩
      cases oe <;> simp [hx, hw]

/-- C3: with a non-zero part supplied through WithPart, Run never consults the
source chain: the instrumented run records that manager.Read was not invoked,
and the run's outcome is identical for any two read functions — in particular
a manager whose Read would error does not affect the run. -/
theorem run_with_part_skips_read (os : OsEnv) (env : Env) (input : String)
    (partOne partTwo : String → Int) (rf rf' : String → Except GoError String)
    (wf : String → String × Option GoError) (p : Int) (hp : p ≠ 0) :
    (RunT os env input partOne partTwo [WithManager ⟨rf, wf⟩, WithPart p]).2 = false ∧
    RunT os env input partOne partTwo [WithManager ⟨rf, wf⟩, WithPart p] =
      RunT os env input partOne partTwo [WithManager ⟨rf', wf⟩, WithPart p] := by
  constructor
  · rw [RunT_snd_eq]
    simp [injectOptionsT, applyOptions, WithManager, WithPart, hp]
  · simp [RunT, injectOptionsT, applyOptions, WithManager, WithPart, hp]

/-- Witness for C3: WithPart 1 with a manager whose Read always errors gives
the same (successful) instrumented run as one whose Read returns "2", with no
Read invocation recorded. -/
theorem run_with_part_skips_read_witness :
    (RunT osNoPart envEmpty "input" mockPartOne mockPartTwo
        [WithManager ⟨fun _ => .error (.external "read boom"),
          fun r => ("The challenge result is " ++ r ++ "\n", none)⟩, WithPart 1]).2 = false ∧
    RunT osNoPart envEmpty "input" mockPartOne mockPartTwo
        [WithManager ⟨fun _ => .error (.external "read boom"),
          fun r => ("The challenge result is " ++ r ++ "\n", none)⟩, WithPart 1] =
      RunT osNoPart envEmpty "input" mockPartOne mockPartTwo
        [WithManager ⟨fun _ => .ok "2",
          fun r => ("The challenge result is " ++ r ++ "\n", none)⟩, WithPart 1] :=
  run_with_part_skips_read osNoPart envEmpty "input" mockPartOne mockPartTwo
    (fun _ => .error (.external "read boom")) (fun _ => .ok "2")
    (fun r => ("The challenge result is " ++ r ++ "\n", none)) 1 (by decide)

/-- C4: with no part override, an empty flag value, the environment variable
unset and empty interactive input (Fscanln hits io.EOF), resolution fails
with the missing-selector error IOReadError{ErrMissingPart}, and Run returns
that failure. -/
theorem run_missing_part_when_no_source :
    consoleRead osNoPart envEmpty "part" = .error (.ioRead .missingPart) ∧
    Run osNoPart envEmpty "input" mockPartOne mockPartTwo [] =
      (.err (.ioRead .missingPart), "") :=
  ⟨rfl, rfl⟩

/-- C5: whatever source produced it, a winning raw selector string that
strconv.Atoi rejects makes resolution fail with ErrInvalidPartType, and Run
returns that failure. -/
theorem run_invalid_part_type (os : OsEnv) (env : Env) (m : IOManager) (input : String)
    (partOne partTwo : String → Int) (s : String) (e : GoError)
    (hr : m.read "part" = .ok s) (he : goAtoi s = .error e) :
    Run os env input partOne partTwo [WithManager m] = (.err .invalidPartType, "") := by
  simp [Run, RunT, injectOptionsT, applyOptions, WithManager, hr, he]

/-- Witness for C5: the raw strings "ss" and "true" both fail with
ErrInvalidPartType. -/
theorem run_invalid_part_type_witness :
    Run osNoPart envEmpty "input" mockPartOne mockPartTwo
      [WithManager (mockManager "ss" none none)] = (.err .invalidPartType, "") ∧
    Run osNoPart envEmpty "input" mockPartOne mockPartTwo
      [WithManager (mockManager "true" none none)] = (.err .invalidPartType, "") :=
  ⟨run_invalid_part_type osNoPart envEmpty (mockManager "ss" none none) "input"
      mockPartOne mockPartTwo "ss" .atoiBad rfl rfl,
   run_invalid_part_type osNoPart envEmpty (mockManager "true" none none) "input"
      mockPartOne mockPartTwo "true" .atoiBad rfl rfl⟩

/-- C6: a winning raw selector string that parses to an integer v outside
{1,2} makes resolution fail with InvalidPartError{Part: v}, and Run returns
that failure. -/
theorem run_invalid_part_value (os : OsEnv) (env : Env) (m : IOManager) (input : String)
    (partOne partTwo : String → Int) (s : String) (v : Int)
    (hr : m.read "part" = .ok s) (ha : goAtoi s = .ok v) (h1 : v ≠ 1) (h2 : v ≠ 2) :
    Run os env input partOne partTwo [WithManager m] = (.err (.invalidPart v), "") := by
  simp [Run, RunT, injectOptionsT, applyOptions, WithManager, NewPart, hr, ha, h1, h2]

/-- Witness for C6: the default console manager with GOAOC_CHALLENGE_PART set
to "3" makes Run fail with InvalidPartError{Part: 3}. -/
theorem run_invalid_part_value_witness :
    Run osEnvThree envEmpty "input" mockPartOne mockPartTwo
      [WithManager (NewConsoleManager osEnvThree envEmpty)] =
      (.err (.invalidPart 3), "") :=
  run_invalid_part_value osEnvThree envEmpty (NewConsoleManager osEnvThree envEmpty)
    "input" mockPartOne mockPartTwo "3" 3 rfl rfl (by decide) (by decide)

/-- C7: a flag-parse failure short-circuits the whole chain: the read error is
returned at once and neither the environment nor the stdin source is
consulted. -/
theorem console_read_flag_error_short_circuits (os : OsEnv) (env : Env) (e : GoError)
    (h : getPartInFlag env = .error e) :
    consoleReadT os env "part" = (.error e, [.flagSrc]) := by
  simp [consoleReadT, readChecks, readLoop, h]

/-- Witness for C7: the undefined flag `--test` aborts the chain with
IOReadError{flag provided but not defined} after consulting only the flag
source. -/
theorem console_read_flag_error_short_circuits_witness :
    consoleReadT osNoPart envBadFlag "part" =
      (.error (.ioRead (.flagNotDefined "test")), [.flagSrc]) :=
  console_read_flag_error_short_circuits osNoPart envBadFlag
    (.ioRead (.flagNotDefined "test")) rfl

/-- C8 counterexample: when the interactive scan fails with a non-EOF error
("read boom") and nothing was scanned, resolution does NOT fail with an error
carrying that cause — it fails with the missing-part error, whose wrap chain
mentions no external cause at all.  This refutes the claim that a non-EOF
stdin read failure surfaces as an InputReadFailure carrying the cause. -/
theorem console_read_drops_stdin_cause :
    consoleRead osNoPart envStdinBoom "part" = .error (.ioRead .missingPart) ∧
    mentionsExternal (.ioRead .missingPart) = false :=
  ⟨rfl, rfl⟩

/-- C8 amended: only EOF from the interactive scan is converted into the
missing-selector error IOReadError{ErrMissingPart}; a non-EOF scan failure is
swallowed — the stdin source returns the scanned (possibly empty) token with
no error — and when that token is empty and no earlier source produced a
value, resolution fails with the missing-selector error rather than one
carrying the cause. -/
theorem stdin_scan_error_swallowed (os : OsEnv) (env : Env) (e : GoError) (s : String)
    (hout : env.stdoutErr = none) (hscan : env.stdinScan = .scanErr e s) :
    (goIsEOF e = true → getPartInStdin env = .error (.ioRead .missingPart)) ∧
    (goIsEOF e = false → getPartInStdin env = .ok s) ∧
    (goIsEOF e = false → s = "" → getPartInFlag env = .ok "" →
      getenv os.challengePart = "" →
      consoleRead os env "part" = .error (.ioRead .missingPart)) := by
  refine ⟨?_, ?_, ?_⟩
  · intro h
    simp [getPartInStdin, hout, hscan, h]
  · intro h
    simp [getPartInStdin, hout, hscan, h]
  · intro h hs hf he
    simp [consoleRead, consoleReadT, readChecks, readLoop, getPartInEnv, getPartInStdin,
      hout, hscan, h, hs, hf, he]

/-- Witness for C8's amended claim: EOF yields the missing-part error, while
the non-EOF failure "read boom" is dropped and the scanned token "tok" is
returned without error. -/
theorem stdin_scan_error_swallowed_witness :
    getPartInStdin envEmpty = .error (.ioRead .missingPart) ∧
    getPartInStdin envStdinBoomTok = .ok "tok" :=
  ⟨(stdin_scan_error_swallowed osNoPart envEmpty .eof "" rfl rfl).1 rfl,
   (stdin_scan_error_swallowed osNoPart envStdinBoomTok (.external "read boom") "tok"
      rfl rfl).2.1 rfl⟩

/-- C9: when GOAOC_DISABLE_COPY_CLIPBOARD is exactly "true", the clipboard
step emits nothing and a successful Write puts exactly the result line on the
sink; for any other value of the variable, the clipboard copy is attempted
and a non-empty status line is appended to the sink. -/
theorem clipboard_disable_controls_emission (os : OsEnv) (env : Env) (r out : String) :
    (getenv os.disableCopyClipboard = "true" →
      toClipboard os r out = out ∧
      (env.stdoutErr = none →
        consoleWrite os env r = ("The challenge result is " ++ r ++ "\n", none))) ∧
    (getenv os.disableCopyClipboard ≠ "true" →
      ∃ status, status ≠ "" ∧ toClipboard os r out = out ++ status) := by
  constructor
  · intro h
    refine ⟨by simp [toClipboard, h], ?_⟩
    intro hw
    simp [consoleWrite, hw, toClipboard, h]
  · intro h
    cases hc : os.clipboardFail with
    | some msg =>
      refine ⟨"Error copying to clipboard: " ++ msg ++ "\n", ?_, ?_⟩
      · intro hcon
        have hlen := congrArg String.length hcon
        simp [String.length_append] at hlen
        exact absurd hlen.2 (by decide)
      · simp [toClipboard, h, hc, String.append_assoc]
    | none =>
      refine ⟨"Copied to clipboard: " ++ r ++ "\n", ?_, ?_⟩
      · intro hcon
        have hlen := congrArg String.length hcon
        simp [String.length_append] at hlen
        exact absurd hlen.2 (by decide)
      · simp [toClipboard, h, hc, String.append_assoc]

/-- Witness for C9: with the variable set to "true", Write emits exactly the
result line and the clipboard step emits nothing. -/
theorem clipboard_disable_controls_emission_witness :
    toClipboard osClipOff "42" "" = "" ∧
    consoleWrite osClipOff envEmpty "42" = ("The challenge result is 42\n", none) :=
  ⟨((clipboard_disable_controls_emission osClipOff envEmpty "42" "").1 rfl).1,
   ((clipboard_disable_controls_emission osClipOff envEmpty "42" "").1 rfl).2 rfl⟩

/-- C10: the non-zero part 3 supplied through WithPart bypasses validation
(the chain and NewPart are skipped), and executeChallenge's default branch
panics with ErrMissingPart instead of Run returning a typed error. -/
theorem run_with_part_three_panics :
    Run osClipOff envEmpty "input" examplePartOne examplePartTwo [WithPart 3] =
      (.panicked .missingPart, "") := by
  decide

end Goaoc
